import Mathlib

/-!
Verification of the chat session manager (src/components/PilotChat.tsx),
the context-bounded completion proxy (supabase/functions/gemini/index.ts,
context-aware variant) and the backend health probe
(src/components/BackendStatusBadge.tsx), as a shallow embedding.

Conventions of the embedding:
* timestamps are milliseconds as natural numbers (the source compares
  Date.getTime values);
* the random message ids produced by genId are threaded in as parameters
  (uid and pid for the user and pilot messages of one submission, sid for
  the ids of system notices);
* external effects (the dispatched slash command, the proxy fetch) are
  represented by a value describing their observable outcome, passed to
  the submission function;
* the sources and checklist annotations of pilot messages are not modelled:
  no claim inspects them.
-/

namespace SupaStream

/-- Message.sender in PilotChat.tsx: user or pilot. -/
inductive Sender where
  | user
  | pilot
deriving DecidableEq, Repr

/-- Message.status in PilotChat.tsx. -/
inductive MsgStatus where
  | sending
  | sent
  | error
deriving DecidableEq, Repr

/-- Attachment record of PilotChat.tsx. -/
structure Attachment where
  id : String
  name : String
  ftype : String
  url : String
deriving DecidableEq, Repr

/-- Message record of PilotChat.tsx (sources and checklist omitted). -/
structure Message where
  id : String
  content : String
  sender : Sender
  timestamp : Nat
  status : Option MsgStatus
  replyToId : Option String
  attachments : List Attachment
deriving DecidableEq, Repr

/-- The component state used by handleSendMessage: messages, inputValue,
isLoading, isProcessingRef, replyTo (only its id is ever read) and
pendingFiles. -/
structure ChatState where
  messages : List Message
  inputValue : String
  isLoading : Bool
  isProcessing : Bool
  replyTo : Option String
  pendingFiles : List Attachment
deriving DecidableEq, Repr

/-- isDuplicateUserMessage of PilotChat.tsx: an identical user message in
the trailing 10-second window. -/
def isDuplicateUserMessage (msgs : List Message) (now : Nat) (content : String)
    (replyToId : Option String) (attachments : List Attachment) : Bool :=
  msgs.any fun m =>
    m.sender == Sender.user && m.content == content && m.replyToId == replyToId &&
      (m.attachments.length == attachments.length) && decide (now < m.timestamp + 10000)

/-- addSystemMessage of PilotChat.tsx: append a pilot notice unless a pilot
message with identical content already exists. -/
def addSystemMessage (msgs : List Message) (sysId : String) (now : Nat)
    (text : String) : List Message :=
  if msgs.any (fun m => m.sender == Sender.pilot && m.content == text) then msgs
  else msgs ++ [{ id := sysId, content := text, sender := Sender.pilot, timestamp := now,
                  status := some MsgStatus.sent, replyToId := none, attachments := [] }]

/-- Character class of the redaction regex: [A-Za-z0-9-_]. -/
def isTokenChar (c : Char) : Bool :=
  c.isAlphanum || c == ('-') || c == ('_')

/-- The regex whitespace class, restricted to the ASCII whitespace
characters. -/
def isSpaceChar (c : Char) : Bool :=
  c == (' ') || c == ('\t') || c == ('\n') || c == ('\r') || c == ('\x0b') || c == ('\x0c')

/-- JavaScript String.prototype.trim: drop whitespace from both ends. -/
def jsTrim (s : String) : String :=
  String.mk (((s.data.dropWhile isSpaceChar).reverse.dropWhile isSpaceChar).reverse)

/-- inputValue.trim().startsWith of PilotChat.tsx line 176, specialised to
the one-character command marker it is called with. -/
def startsWithChar (s : String) (c : Char) : Bool :=
  s.data.head? == some c

/-- raw.replace of PilotChat.tsx line 179: replace a trailing
whitespace-separated run of 16 or more token characters by the redaction
marker. The regex is end-anchored, so the match is the maximal trailing
token run together with the whitespace run right before it. -/
def redactTrailingToken (s : String) : String :=
  let rev := s.data.reverse
  let tok := rev.takeWhile isTokenChar
  let rest := rev.dropWhile isTokenChar
  let ws := rest.takeWhile isSpaceChar
  if 16 ≤ tok.length ∧ 1 ≤ ws.length then
    String.mk ((rest.dropWhile isSpaceChar).reverse) ++ (" <REDACTED>")
  else s

/-- Observable outcome of the awaited handleCommand call: it resolves after
appending some system notices, or it rejects with an error message (after
possibly appending notices). -/
inductive CmdResult where
  | ok (notices : List String)
  | thrown (notices : List String) (errMsg : String)
deriving Repr

/-- Observable outcome of the awaited gemini proxy fetch in the client:
it throws, or it yields a parsed response with resp.ok, the error field of
the body, and the extracted text of the body (the out.text fallback chain,
which in the source always produces some string). -/
inductive ProxyResult where
  | threw (errMsg : String)
  | resp (ok : Bool) (errField : Option String) (extracted : String)
deriving Repr

/-- JavaScript `a || b` on the optional error field: an absent or empty
string falls through to the default. -/
def jsOrStr (o : Option String) (dflt : String) : String :=
  match o with
  | some s => if s == ("") then dflt else s
  | none => dflt

/-- setMessages(prev.map ...) used to flip the status of the message with a
given id. -/
def markStatus (msgs : List Message) (mid : String) (st : MsgStatus) : List Message :=
  msgs.map fun m => if m.id == mid then { m with status := some st } else m

/-- Sequence of addSystemMessage calls performed by the dispatched command,
each with its own generated id. -/
def addNotices (msgs : List Message) (now : Nat) (sid : Nat → String) (k : Nat) :
    List String → List Message
  | [] => msgs
  | t :: rest => addNotices (addSystemMessage msgs (sid k) now t) now sid (k + 1) rest

/-- handleSendMessage of PilotChat.tsx lines 167-315.

Branch structure mirrors the source: the capability gate, the blank/busy
guard, the latch set, the command branch (duplicate early return, append,
dispatch with try / catch / finally), and the plain branch (duplicate early
return, append, proxy fetch with try / catch / finally or the local
fallback reply). Note that in the source the `finally` of each try runs on
every exit of the try block, including the early `return` of the non-OK
response branch; only the duplicate early return of the command branch is
outside any try and performs no cleanup. -/
def handleSendMessage (geminiAtivo geminiEnabled : Bool) (now : Nat)
    (uid pid : String) (sid : Nat → String)
    (cmd : CmdResult) (proxy : ProxyResult) (fallbackContent : String)
    (s : ChatState) : ChatState :=
  if !geminiAtivo then
    let off := addSystemMessage s.messages (sid 0) now
      ("Atenção: Gemini/IA desativado no momento. Ative para enviar mensagens.")
    { s with messages := off }
  else if (jsTrim s.inputValue == ("")) || s.isLoading || s.isProcessing then s
  else
    let s1 : ChatState := { s with isProcessing := true }
    if startsWithChar (jsTrim s1.inputValue) ('/') then
      let raw := jsTrim s1.inputValue
      let sanitized := redactTrailingToken raw
      if isDuplicateUserMessage s1.messages now sanitized none [] then
        let dup := addSystemMessage s1.messages (sid 0) now ("Mensagem duplicada impedida.")
        { s1 with messages := dup, inputValue := ("") }
      else
        let userMessage : Message :=
          { id := uid,
            content := sanitized,
            sender := Sender.user,
            timestamp := now,
            status := some MsgStatus.sending,
            replyToId := none,
            attachments := [] }
        let s2 : ChatState := { s1 with
          messages := s1.messages ++ [userMessage],
          inputValue := (""),
          replyTo := none,
          pendingFiles := [],
          isLoading := true }
        match cmd with
        | CmdResult.ok notices =>
          let m1 := addNotices s2.messages now sid 1 notices
          let m2 := markStatus m1 uid MsgStatus.sent
          { s2 with messages := m2, isLoading := false, isProcessing := false }
        | CmdResult.thrown notices errMsg =>
          let m1 := addNotices s2.messages now sid 1 notices
          let m2 := addSystemMessage m1 (sid 0) now (("Erro ao executar comando: ") ++ errMsg)
          let m3 := markStatus m2 uid MsgStatus.error
          { s2 with messages := m3, isLoading := false, isProcessing := false }
    else
      let content := s1.inputValue
      if isDuplicateUserMessage s1.messages now content s1.replyTo s1.pendingFiles then
        let dup := addSystemMessage s1.messages (sid 0) now ("Mensagem duplicada impedida.")
        { s1 with messages := dup, inputValue := (""), isProcessing := false }
      else
        let userMessage : Message :=
          { id := uid,
            content := content,
            sender := Sender.user,
            timestamp := now,
            status := some MsgStatus.sending,
            replyToId := s1.replyTo,
            attachments := s1.pendingFiles }
        let s2 : ChatState := { s1 with
          messages := s1.messages ++ [userMessage],
          inputValue := (""),
          replyTo := none,
          pendingFiles := [],
          isLoading := true }
        if geminiEnabled then
          match proxy with
          | ProxyResult.threw errMsg =>
            let m1 := addSystemMessage s2.messages (sid 0) now (("Erro Gemini: ") ++ errMsg)
            let m2 := markStatus m1 uid MsgStatus.error
            { s2 with messages := m2, isLoading := false, isProcessing := false }
          | ProxyResult.resp ok errField extracted =>
            if !ok then
              let m1 := addSystemMessage s2.messages (sid 0) now
                (("Erro Gemini: ") ++ jsOrStr errField ("Resposta inválida"))
              { s2 with messages := m1, isLoading := false, isProcessing := false }
            else
              let reply : Message :=
                { id := pid,
                  content := (if extracted == ("") then ("Sem resposta do Gemini.") else extracted),
                  sender := Sender.pilot,
                  timestamp := now,
                  status := some MsgStatus.sent,
                  replyToId := none,
                  attachments := [] }
              let m1 := s2.messages ++ [reply]
              let m2 := markStatus m1 uid MsgStatus.sent
              { s2 with messages := m2, isLoading := false, isProcessing := false }
        else
          let reply : Message :=
            { id := pid,
              content := fallbackContent,
              sender := Sender.pilot,
              timestamp := now,
              status := some MsgStatus.sent,
              replyToId := none,
              attachments := [] }
          let m1 := if s2.messages.any
              (fun m => m.sender == Sender.pilot && m.content == fallbackContent)
            then s2.messages
            else s2.messages ++ [reply]
          let m2 := markStatus m1 uid MsgStatus.sent
          { s2 with messages := m2, isLoading := false, isProcessing := false }

/-! The context-bounded completion proxy (context-aware variant of
supabase/functions/gemini/index.ts). -/

/-- MAX_MESSAGES of index.ts. -/
def MAX_MESSAGES : Nat := 12

/-- MAX_CONTEXT_CHARS of index.ts. -/
def MAX_CONTEXT_CHARS : Nat := 5000

/-- A stored row of the messages table as used by the context assembly. -/
structure StoredMsg where
  sender : String
  content : String
deriving DecidableEq, Repr

/-- One turn of the payload sent upstream. -/
structure Turn where
  role : String
  text : String
deriving DecidableEq, Repr

/-- Role tagging of index.ts line 209. -/
def roleOf (m : StoredMsg) : String :=
  if m.sender == ("user") then ("user") else ("model")

/-- StoredMsg to payload turn. -/
def toTurn (m : StoredMsg) : Turn :=
  { role := roleOf m, text := m.content }

/-- The context assembly loop of index.ts lines 206-221: walk the
chronological list accumulating totalChars; the first message whose
addition would exceed MAX_CONTEXT_CHARS breaks the loop. -/
def buildContext : List StoredMsg → Nat → List Turn
  | [], _ => []
  | m :: rest, totalChars =>
    if MAX_CONTEXT_CHARS < totalChars + m.content.length then []
    else toTurn m :: buildContext rest (totalChars + m.content.length)

/-- prompt.slice(0, n) applied when the prompt is longer than n. -/
def truncateTo (p : String) (n : Nat) : String :=
  if n < p.length then String.mk (p.data.take n) else p

/-- The store query of index.ts lines 189-194: most recent MAX_MESSAGES
rows, newest first. The stored history is given in chronological order. -/
def fetchRecent (history : List StoredMsg) : List StoredMsg :=
  (history.reverse).take MAX_MESSAGES

/-- Context assembly of index.ts lines 200-231: reverse the fetched rows to
chronological order, run the greedy loop, and fall back to the single
truncated-prompt user turn when the assembled context is empty. -/
def assembleContents (history : List StoredMsg) (prompt : String) : List Turn :=
  let recentMessages := fetchRecent history
  let contents := if 0 < recentMessages.length
    then buildContext recentMessages.reverse 0 else []
  let truncatedPrompt := truncateTo prompt 1000
  if contents.length == 0 then [{ role := ("user"), text := truncatedPrompt }] else contents

/-- Total text length of a list of turns. -/
def turnsLen (ts : List Turn) : Nat := (ts.map (fun t => t.text.length)).sum

/-- Total content length of a list of stored rows. -/
def storedLen (ms : List StoredMsg) : Nat := (ms.map (fun m => m.content.length)).sum

/-! Response extraction and persistence of the context-aware proxy. -/

/-- parts[i] of the upstream body. -/
structure GemPart where
  text : Option String
deriving DecidableEq, Repr

/-- candidates[i].content of the upstream body. -/
structure GemContent where
  parts : Option (List GemPart)
deriving DecidableEq, Repr

/-- candidates[i] of the upstream body. -/
structure GemCandidate where
  content : Option GemContent
deriving DecidableEq, Repr

/-- output[i] of the alternative upstream body shape. -/
structure GemOutputItem where
  content : Option (List GemPart)
deriving DecidableEq, Repr

/-- The parsed upstream body, with only the fields the proxy reads. -/
structure GemOut where
  candidates : Option (List GemCandidate)
  output : Option (List GemOutputItem)
deriving DecidableEq, Repr

/-- JavaScript truthiness of an optional string: present and non-empty. -/
def optTruthy (o : Option String) : Bool :=
  match o with
  | some s => !(s == (""))
  | none => false

/-- The candidates[0].content.parts[0].text chain of index.ts line 260-262. -/
def candText (out : GemOut) : Option String :=
  ((((out.candidates.bind List.head?).bind GemCandidate.content).bind
      GemContent.parts).bind List.head?).bind GemPart.text

/-- The output[0].content[0].text chain of index.ts line 263-264. -/
def outputText (out : GemOut) : Option String :=
  (((out.output.bind List.head?).bind GemOutputItem.content).bind List.head?).bind GemPart.text

/-- Text extraction of index.ts lines 258-269: the candidates shape is
checked first, then the output shape; each is accepted only when the text
field is present and truthy; otherwise text stays null. -/
def extractText (out : GemOut) : Option String :=
  if optTruthy (candText out) then candText out
  else if optTruthy (outputText out) then outputText out
  else none

/-- A row of the messages table as written by the proxy. -/
structure MsgRow where
  chat_id : String
  content : String
  sender : String
deriving DecidableEq, Repr

/-- Persistence step of index.ts lines 271-278: `if (text)` guards a single
insert of the assistant row; a null (or falsy) text inserts nothing. -/
def persistAssistant (chatId : String) (text : Option String) : List MsgRow :=
  match text with
  | some t =>
    if t == ("") then []
    else [{ chat_id := chatId, content := t, sender := ("assistant") }]
  | none => []

/-! The backend health probe (BackendStatusBadge.tsx). -/

/-- BackendStatus of BackendStatusBadge.tsx. -/
inductive BackendStatus where
  | ok
  | warn
  | error
deriving DecidableEq, Repr

/-- Observable outcome of the probe fetch: the promise rejects (a network
error, or the 6-second AbortController timeout firing), or a response with
an HTTP status arrives. -/
inductive ProbeOutcome where
  | raised
  | responded (status : Nat)
deriving DecidableEq, Repr

/-- Response.ok of the fetch API: status in the inclusive range 200-299. -/
def respOk (status : Nat) : Bool := 200 ≤ status && status ≤ 299

/-- runCheck of BackendStatusBadge.tsx lines 17-33. -/
def runCheck : ProbeOutcome → BackendStatus
  | ProbeOutcome.raised => BackendStatus.error
  | ProbeOutcome.responded st =>
    if respOk st then BackendStatus.ok
    else if 500 ≤ st then BackendStatus.error
    else BackendStatus.warn

/-! Derived observers used by the statements. -/

/-- The user-authored part of a transcript. -/
def usersOf (msgs : List Message) : List Message :=
  msgs.filter (fun m => m.sender == Sender.user)

/-- Number of pilot messages with a given content. -/
def pilotCount (msgs : List Message) (text : String) : Nat :=
  (msgs.filter (fun m => m.sender == Sender.pilot && m.content == text)).length

/-- Final status of the user message recorded by the command branch, by
command outcome. -/
def cmdStatus : CmdResult → MsgStatus
  | CmdResult.ok _ => MsgStatus.sent
  | CmdResult.thrown _ _ => MsgStatus.error

/-! Concrete inputs used by the counterexamples and witnesses. -/

/-- A transcript holding one user command message sent 1 second before
`now = 6000`, with the same command typed again. -/
def latchBugState : ChatState :=
  { messages := [{ id := ("u0"), content := ("/listar"), sender := Sender.user,
                   timestamp := 5000, status := some MsgStatus.sent, replyToId := none,
                   attachments := [] }],
    inputValue := ("/listar"),
    isLoading := false,
    isProcessing := false,
    replyTo := none,
    pendingFiles := [] }

/-- A fresh chat about to submit a plain message. -/
def freshState : ChatState :=
  { messages := [],
    inputValue := ("oi"),
    isLoading := false,
    isProcessing := false,
    replyTo := none,
    pendingFiles := [] }

/-- A transcript holding one plain user message sent 1 second before
`now = 2000`, with the same text typed again. -/
def dupState : ChatState :=
  { messages := [{ id := ("u0"), content := ("oi"), sender := Sender.user,
                   timestamp := 1000, status := some MsgStatus.sent, replyToId := none,
                   attachments := [] }],
    inputValue := ("oi"),
    isLoading := false,
    isProcessing := false,
    replyTo := none,
    pendingFiles := [] }

/-- First extra duplicate attempt on dupState. -/
def dupOnce : ChatState :=
  handleSendMessage true true 2000 ("u1") ("p1") (fun k => ("sysA") ++ toString k)
    (CmdResult.ok []) (ProxyResult.threw ("")) ("") dupState

/-- Second extra duplicate attempt: the user types the same text again. -/
def dupTwice : ChatState :=
  handleSendMessage true true 3000 ("u2") ("p2") (fun k => ("sysB") ++ toString k)
    (CmdResult.ok []) (ProxyResult.threw ("")) ("")
    { dupOnce with inputValue := ("oi") }

/-- A stored history of 15 turns. -/
def hist15 : List StoredMsg :=
  (List.range 15).map (fun i => { sender := ("user"), content := toString i })

/-- A 5001-character content. -/
def bigContent : String := String.mk (List.replicate 5001 ('a'))

/-- A stored history of 13 turns whose chronologically first turn alone
exceeds the context budget; the 12 later turns are one character each. -/
def hist13 : List StoredMsg :=
  { sender := ("user"), content := bigContent } ::
    (List.range 12).map (fun _ => { sender := ("assistant"), content := ("x") })

/-- A stored history holding a single over-budget turn. -/
def hist1big : List StoredMsg := [{ sender := ("user"), content := bigContent }]

/-- A transcript holding one user command message sent 1 second before
`now = 6000`, with the same command typed again (command-branch duplicate
input used to exercise the duplicate-suppression claim). -/
def dupCmdState : ChatState :=
  { messages := [{ id := ("u0"), content := ("/listar"), sender := Sender.user,
                   timestamp := 5000, status := some MsgStatus.sent, replyToId := none,
                   attachments := [] }],
    inputValue := ("/listar"),
    isLoading := false,
    isProcessing := false,
    replyTo := none,
    pendingFiles := [] }

/-- A pilot notice already present in a transcript. -/
def noticeMsg : Message :=
  { id := ("n0"), content := ("hello"), sender := Sender.pilot, timestamp := 0,
    status := some MsgStatus.sent, replyToId := none, attachments := [] }

/-- An upstream body carrying text in the candidates shape. -/
def outSome : GemOut :=
  { candidates := some [{ content := some { parts := some [{ text := some ("ola") }] } }],
    output := none }

/-- A command submission on a fresh chat whose trailing 16-character token
is a secret to redact. -/
def cmdState : ChatState :=
  { messages := [],
    inputValue := ("/supabase connect https://x.co abcdefghijklmnop"),
    isLoading := false,
    isProcessing := false,
    replyTo := none,
    pendingFiles := [] }

/-! Helper lemmas. -/

theorem takeWhile_append_all {α} (f : α → Bool) (l1 l2 : List α)
    (h : ∀ a ∈ l1, f a = true) :
    (l1 ++ l2).takeWhile f = l1 ++ l2.takeWhile f := by
  induction l1 with
  | nil => simp
  | cons a t ih =>
    simp [List.takeWhile_cons, h a (by simp), ih (fun b hb => h b (by simp [hb]))]

theorem dropWhile_append_all {α} (f : α → Bool) (l1 l2 : List α)
    (h : ∀ a ∈ l1, f a = true) :
    (l1 ++ l2).dropWhile f = l2.dropWhile f := by
  induction l1 with
  | nil => simp
  | cons a t ih =>
    simp [List.dropWhile_cons, h a (by simp), ih (fun b hb => h b (by simp [hb]))]

theorem space_not_token (c : Char) (h : isSpaceChar c = true) : isTokenChar c = false := by
  unfold isSpaceChar at h
  simp only [Bool.or_eq_true, beq_iff_eq] at h
  rcases h with ((((h | h) | h) | h) | h) | h <;> subst h <;> decide

theorem usersOf_append (a b : List Message) : usersOf (a ++ b) = usersOf a ++ usersOf b := by
  simp [usersOf, List.filter_append]

theorem usersOf_addSystemMessage (msgs : List Message) (sysId : String) (now : Nat)
    (text : String) : usersOf (addSystemMessage msgs sysId now text) = usersOf msgs := by
  unfold addSystemMessage
  split
  · rfl
  · simp [usersOf, List.filter_append]

theorem usersOf_addNotices (msgs : List Message) (now : Nat) (sid : Nat → String) (k : Nat)
    (ts : List String) : usersOf (addNotices msgs now sid k ts) = usersOf msgs := by
  induction ts generalizing msgs k with
  | nil => rfl
  | cons t rest ih =>
    unfold addNotices
    rw [ih, usersOf_addSystemMessage]

theorem usersOf_markStatus (msgs : List Message) (mid : String) (st : MsgStatus) :
    usersOf (markStatus msgs mid st)
      = (usersOf msgs).map (fun m => if m.id == mid then { m with status := some st } else m) := by
  induction msgs with
  | nil => rfl
  | cons m rest ih =>
    have hs : ((if m.id == mid then { m with status := some st } else m) : Message).sender
        = m.sender := by split <;> rfl
    unfold usersOf markStatus at *
    simp only [List.map_cons, List.filter_cons, hs]
    by_cases hu : (m.sender == Sender.user) = true
    · simp only [hu, if_true, List.map_cons, ih]
    · simp only [Bool.not_eq_true] at hu
      simp only [hu, Bool.false_eq_true, if_false, ih]

theorem markStatus_of_absent (msgs : List Message) (mid : String) (st : MsgStatus)
    (h : ∀ m ∈ msgs, (m.id == mid) = false) : markStatus msgs mid st = msgs := by
  unfold markStatus
  have hid : ∀ m ∈ msgs,
      (if m.id == mid then ({ m with status := some st } : Message) else m) = m := by
    intro m hm
    simp [h m hm]
  rw [List.map_congr_left hid]
  simp

theorem pilotCount_addSystemMessage (msgs : List Message) (sysId : String) (now : Nat)
    (text : String) :
    pilotCount (addSystemMessage msgs sysId now text) text
      = max 1 (pilotCount msgs text) := by
  unfold addSystemMessage pilotCount
  split
  · rename_i hany
    simp only [List.any_eq_true] at hany
    obtain ⟨m, hm, hp⟩ := hany
    have hmem : m ∈ msgs.filter (fun m => m.sender == Sender.pilot && m.content == text) :=
      List.mem_filter.mpr ⟨hm, hp⟩
    have hlen : 1 ≤ (msgs.filter (fun m => m.sender == Sender.pilot && m.content == text)).length :=
      List.length_pos.mpr (List.ne_nil_of_mem hmem)
    omega
  · rename_i hany
    have hnone : (msgs.filter (fun m => m.sender == Sender.pilot && m.content == text)) = [] := by
      rw [List.filter_eq_nil_iff]
      intro m hm
      intro hp
      exact hany (List.any_eq_true.mpr ⟨m, hm, hp⟩)
    rw [List.filter_append, hnone]
    simp

theorem buildContext_total_le (l : List StoredMsg) (total : Nat)
    (h : total ≤ MAX_CONTEXT_CHARS) :
    total + turnsLen (buildContext l total) ≤ MAX_CONTEXT_CHARS := by
  induction l generalizing total with
  | nil => simpa [buildContext, turnsLen]
  | cons m rest ih =>
    unfold buildContext
    split
    · simpa [turnsLen]
    · rename_i hle
      have hfit : total + m.content.length ≤ MAX_CONTEXT_CHARS := by omega
      have := ih (total + m.content.length) hfit
      simp only [turnsLen, List.map_cons, List.sum_cons, toTurn] at this ⊢
      omega

theorem buildContext_is_initial_run (l : List StoredMsg) (total : Nat)
    (h : total ≤ MAX_CONTEXT_CHARS) :
    ∃ k, k ≤ l.length ∧
      buildContext l total = (l.take k).map toTurn ∧
      total + storedLen (l.take k) ≤ MAX_CONTEXT_CHARS ∧
      ∀ hk : k < l.length,
        MAX_CONTEXT_CHARS < total + storedLen (l.take k) + (l.get ⟨k, hk⟩).content.length := by
  induction l generalizing total with
  | nil =>
    refine ⟨0, by simp, by simp [buildContext], by simpa [storedLen], ?_⟩
    intro hk
    simp at hk
  | cons m rest ih =>
    by_cases hover : MAX_CONTEXT_CHARS < total + m.content.length
    · refine ⟨0, by simp, ?_, by simpa [storedLen], ?_⟩
      · unfold buildContext
        rw [if_pos hover]
        simp
      · intro hk
        simpa [storedLen] using hover
    · have hfit : total + m.content.length ≤ MAX_CONTEXT_CHARS := by omega
      obtain ⟨k, hk1, hk2, hk3, hk4⟩ := ih (total + m.content.length) hfit
      refine ⟨k + 1, by simpa using hk1, ?_, ?_, ?_⟩
      · unfold buildContext
        rw [if_neg hover, hk2]
        simp
      · simp only [List.take_succ_cons, storedLen, List.map_cons, List.sum_cons]
        simp only [storedLen] at hk3
        omega
      · intro hk
        have hk' : k < rest.length := by simpa using hk
        have := hk4 hk'
        simp only [List.take_succ_cons, storedLen, List.map_cons, List.sum_cons,
          List.get_cons_succ]
        simp only [storedLen] at this
        omega

theorem buildContext_length_le (l : List StoredMsg) (total : Nat)
    (h : total ≤ MAX_CONTEXT_CHARS) :
    (buildContext l total).length ≤ l.length := by
  obtain ⟨k, hk1, hk2, -, -⟩ := buildContext_is_initial_run l total h
  rw [hk2]
  simp only [List.length_map, List.length_take]
  omega

theorem truncateTo_length_le (p : String) (n : Nat) : (truncateTo p n).length ≤ n := by
  unfold truncateTo
  split
  · rename_i hlt
    show (p.data.take n).length ≤ n
    simp [List.length_take]
  · rename_i hlt
    omega

theorem truncateTo_of_short (p : String) (n : Nat) (h : p.length ≤ n) :
    truncateTo p n = p := by
  unfold truncateTo
  rw [if_neg]
  omega

theorem assembleContents_normal (history : List StoredMsg) (prompt : String) :
    assembleContents history prompt
      = (if (buildContext (fetchRecent history).reverse 0).length == 0
          then [{ role := ("user"), text := truncateTo prompt 1000 }]
          else buildContext (fetchRecent history).reverse 0) := by
  cases hfr : fetchRecent history with
  | nil =>
    unfold assembleContents
    rw [hfr]
    simp [buildContext]
  | cons a t =>
    unfold assembleContents
    rw [hfr]
    simp

theorem extractText_not_empty (out : GemOut) (t : String)
    (h : extractText out = some t) : (t == ("")) = false := by
  unfold extractText at h
  split at h
  · rename_i htr
    rw [h] at htr
    simpa [optTruthy] using htr
  · split at h
    · rename_i htr
      rw [h] at htr
      simpa [optTruthy] using htr
    · exact absurd h (by simp)

theorem bigContent_length : bigContent.length = 5001 := by
  show (List.replicate 5001 ('a')).length = 5001
  exact List.length_replicate 5001 _

theorem markStatus_append (a b : List Message) (mid : String) (st : MsgStatus) :
    markStatus (a ++ b) mid st = markStatus a mid st ++ markStatus b mid st := by
  simp [markStatus]

theorem usersOf_markStatus2 (msgs : List Message) (mid : String) (st : MsgStatus) :
    usersOf (markStatus msgs mid st) = markStatus (usersOf msgs) mid st :=
  usersOf_markStatus msgs mid st

theorem usersOf_command_result (msgs : List Message) (uid : String) (now : Nat)
    (sid : Nat → String) (notices : List String) (st : MsgStatus) (content : String)
    (hFresh : ∀ m ∈ msgs, (m.id == uid) = false) :
    usersOf (markStatus (addNotices (msgs ++
        [{ id := uid, content := content, sender := Sender.user, timestamp := now,
           status := some MsgStatus.sending, replyToId := none, attachments := [] }])
        now sid 1 notices) uid st)
      = usersOf msgs ++
        [{ id := uid, content := content, sender := Sender.user, timestamp := now,
           status := some st, replyToId := none, attachments := [] }] := by
  rw [usersOf_markStatus2, usersOf_addNotices, usersOf_append, markStatus_append]
  rw [markStatus_of_absent (usersOf msgs) uid st
    (fun m hm => hFresh m (List.mem_of_mem_filter hm))]
  congr 1
  simp [usersOf, markStatus]

theorem handleSend_dup_plain (geminiEnabled : Bool) (now : Nat) (uid pid : String)
    (sid : Nat → String) (cmd : CmdResult) (proxy : ProxyResult) (fb : String)
    (s : ChatState)
    (hInput : (jsTrim s.inputValue == ("")) = false)
    (hLoad : s.isLoading = false) (hProc : s.isProcessing = false)
    (hCmd : startsWithChar (jsTrim s.inputValue) ('/') = false)
    (hDup : isDuplicateUserMessage s.messages now s.inputValue s.replyTo s.pendingFiles
      = true) :
    handleSendMessage true geminiEnabled now uid pid sid cmd proxy fb s
      = { s with
          messages := addSystemMessage s.messages (sid 0) now ("Mensagem duplicada impedida."),
          inputValue := (""),
          isProcessing := false } := by
  unfold handleSendMessage
  simp [hInput, hLoad, hProc, hCmd, hDup]

theorem handleSend_dup_command (geminiEnabled : Bool) (now : Nat) (uid pid : String)
    (sid : Nat → String) (cmd : CmdResult) (proxy : ProxyResult) (fb : String)
    (s : ChatState)
    (hInput : (jsTrim s.inputValue == ("")) = false)
    (hLoad : s.isLoading = false) (hProc : s.isProcessing = false)
    (hCmd : startsWithChar (jsTrim s.inputValue) ('/') = true)
    (hDup : isDuplicateUserMessage s.messages now
      (redactTrailingToken (jsTrim s.inputValue)) none [] = true) :
    handleSendMessage true geminiEnabled now uid pid sid cmd proxy fb s
      = { s with
          messages := addSystemMessage s.messages (sid 0) now ("Mensagem duplicada impedida."),
          inputValue := (""),
          isProcessing := true } := by
  unfold handleSendMessage
  simp [hInput, hLoad, hProc, hCmd, hDup]

theorem handleSend_command_ok (geminiEnabled : Bool) (now : Nat) (uid pid : String)
    (sid : Nat → String) (notices : List String) (proxy : ProxyResult) (fb : String)
    (s : ChatState)
    (hInput : (jsTrim s.inputValue == ("")) = false)
    (hLoad : s.isLoading = false) (hProc : s.isProcessing = false)
    (hCmd : startsWithChar (jsTrim s.inputValue) ('/') = true)
    (hDup : isDuplicateUserMessage s.messages now
      (redactTrailingToken (jsTrim s.inputValue)) none [] = false) :
    handleSendMessage true geminiEnabled now uid pid sid (CmdResult.ok notices) proxy fb s
      = { s with
          messages := markStatus
            (addNotices (s.messages ++
              [{ id := uid, content := redactTrailingToken (jsTrim s.inputValue),
                 sender := Sender.user, timestamp := now, status := some MsgStatus.sending,
                 replyToId := none, attachments := [] }]) now sid 1 notices) uid MsgStatus.sent,
          inputValue := (""),
          replyTo := none,
          pendingFiles := [],
          isLoading := false,
          isProcessing := false } := by
  unfold handleSendMessage
  simp [hInput, hLoad, hProc, hCmd, hDup]

theorem handleSend_command_thrown (geminiEnabled : Bool) (now : Nat) (uid pid : String)
    (sid : Nat → String) (notices : List String) (errMsg : String) (proxy : ProxyResult)
    (fb : String) (s : ChatState)
    (hInput : (jsTrim s.inputValue == ("")) = false)
    (hLoad : s.isLoading = false) (hProc : s.isProcessing = false)
    (hCmd : startsWithChar (jsTrim s.inputValue) ('/') = true)
    (hDup : isDuplicateUserMessage s.messages now
      (redactTrailingToken (jsTrim s.inputValue)) none [] = false) :
    handleSendMessage true geminiEnabled now uid pid sid (CmdResult.thrown notices errMsg)
        proxy fb s
      = { s with
          messages := markStatus
            (addSystemMessage
              (addNotices (s.messages ++
                [{ id := uid, content := redactTrailingToken (jsTrim s.inputValue),
                   sender := Sender.user, timestamp := now, status := some MsgStatus.sending,
                   replyToId := none, attachments := [] }]) now sid 1 notices)
              (sid 0) now (("Erro ao executar comando: ") ++ errMsg)) uid MsgStatus.error,
          inputValue := (""),
          replyTo := none,
          pendingFiles := [],
          isLoading := false,
          isProcessing := false } := by
  unfold handleSendMessage
  simp [hInput, hLoad, hProc, hCmd, hDup]

theorem redactTrailingToken_spec (p w t : List Char)
    (ht : ∀ c ∈ t, isTokenChar c = true) (htl : 16 ≤ t.length)
    (hw : ∀ c ∈ w, isSpaceChar c = true) (hwl : 1 ≤ w.length)
    (hp : ∀ c, p.getLast? = some c → isSpaceChar c = false) :
    redactTrailingToken (String.mk (p ++ w ++ t)) = String.mk p ++ (" <REDACTED>") := by
  obtain ⟨wlast, w', hw'⟩ : ∃ c l, w.reverse = c :: l := by
    cases hwr : w.reverse with
    | nil =>
      exfalso
      have : w = [] := by simpa using congrArg List.reverse hwr
      rw [this] at hwl
      simp at hwl
    | cons c l => exact ⟨c, l, rfl⟩
  have hwlast_mem : wlast ∈ w := by
    have h1 : wlast ∈ w.reverse := by rw [hw']; simp
    simpa using h1
  have hwlast_nottok : isTokenChar wlast = false :=
    space_not_token wlast (hw wlast hwlast_mem)
  have hrev : (p ++ w ++ t).reverse = t.reverse ++ (w.reverse ++ p.reverse) := by
    simp [List.reverse_append]
  have htok_all : ∀ c ∈ t.reverse, isTokenChar c = true := fun c hc => ht c (by simpa using hc)
  have hwrev_all : ∀ c ∈ w.reverse, isSpaceChar c = true := fun c hc => hw c (by simpa using hc)
  have htake : ((p ++ w ++ t).reverse).takeWhile isTokenChar = t.reverse := by
    rw [hrev, takeWhile_append_all _ _ _ htok_all, hw']
    simp [List.takeWhile_cons, hwlast_nottok]
  have hdrop : ((p ++ w ++ t).reverse).dropWhile isTokenChar = w.reverse ++ p.reverse := by
    rw [hrev, dropWhile_append_all _ _ _ htok_all, hw']
    simp [List.dropWhile_cons, hwlast_nottok]
  have hws : ((w.reverse ++ p.reverse).takeWhile isSpaceChar)
      = w.reverse ++ p.reverse.takeWhile isSpaceChar :=
    takeWhile_append_all _ _ _ hwrev_all
  have hdropsp : (w.reverse ++ p.reverse).dropWhile isSpaceChar
      = p.reverse.dropWhile isSpaceChar :=
    dropWhile_append_all _ _ _ hwrev_all
  have hpdrop : p.reverse.dropWhile isSpaceChar = p.reverse := by
    cases hpr : p.reverse with
    | nil => rfl
    | cons c l =>
      have hcl : p.getLast? = some c := by
        rw [← List.head?_reverse, hpr]
        rfl
      simp [List.dropWhile_cons, hp c hcl]
  unfold redactTrailingToken
  show (if 16 ≤ (((String.mk (p ++ w ++ t)).data.reverse).takeWhile isTokenChar).length ∧
          1 ≤ ((((String.mk (p ++ w ++ t)).data.reverse).dropWhile isTokenChar).takeWhile
            isSpaceChar).length
        then String.mk (((((String.mk (p ++ w ++ t)).data.reverse).dropWhile
            isTokenChar).dropWhile isSpaceChar).reverse) ++ (" <REDACTED>")
        else String.mk (p ++ w ++ t)) = String.mk p ++ (" <REDACTED>")
  have hdata : (String.mk (p ++ w ++ t)).data = p ++ w ++ t := rfl
  rw [hdata, htake, hdrop, hdropsp, hpdrop]
  rw [if_pos]
  · simp
  · constructor
    · simpa using htl
    · rw [hws]
      simp only [List.length_append]
      have h2 : 1 ≤ w.reverse.length := by simpa using hwl
      omega

/-! Claims. -/

/-- C1: the claim that the in-flight latch is false after the submission
settles on every exit path fails on the code: the duplicate-suppression
early return of the command branch sets the latch and returns without any
cleanup. At the concrete input (a command identical to a user message sent
one second earlier) the latch is false before the call and still set after
it returns. -/
theorem C1_latch_left_set_on_command_duplicate :
    latchBugState.isProcessing = false ∧
    (handleSendMessage true true 6000 ("u1") ("p1") (fun k => ("sys") ++ toString k)
      (CmdResult.ok []) (ProxyResult.threw ("")) ("") latchBugState).isProcessing = true := by
  decide

/-- C2: the claim that the appended user message settles to sent or error in
every outcome branch fails on the code: when the proxy responds with a
non-OK HTTP status the early return skips both status updates, so the user
message keeps status sending (the cleanup block only resets the loading flag
and the latch). Evaluated at a valid, non-duplicate, capability-enabled
submission answered with a non-OK response. -/
theorem C2_user_status_stuck_on_non_ok_response :
    ((handleSendMessage true true 1000 ("u1") ("p1") (fun k => ("sys") ++ toString k)
        (CmdResult.ok []) (ProxyResult.resp false (some ("quota")) ("")) ("")
        freshState).messages.filter (fun m => m.sender == Sender.user)).map Message.status
      = [some MsgStatus.sending] ∧
    (handleSendMessage true true 1000 ("u1") ("p1") (fun k => ("sys") ++ toString k)
        (CmdResult.ok []) (ProxyResult.resp false (some ("quota")) ("")) ("")
        freshState).messages.length = freshState.messages.length + 2 ∧
    (handleSendMessage true true 1000 ("u1") ("p1") (fun k => ("sys") ++ toString k)
        (CmdResult.ok []) (ProxyResult.resp false (some ("quota")) ("")) ("")
        freshState).isProcessing = false := by
  decide

/-- C4: for every stored history, the assembled context window holds at most
MAX_MESSAGES (12) turns, the total text length of the assembled turns stays
within MAX_CONTEXT_CHARS (5000), and the greedy stage includes exactly an
initial segment of the chronological window: the first turn whose addition
would exceed the budget is excluded and so is everything after it. -/
theorem C4_context_window_budget (history : List StoredMsg) (prompt : String) :
    (assembleContents history prompt).length ≤ MAX_MESSAGES ∧
    turnsLen (assembleContents history prompt) ≤ MAX_CONTEXT_CHARS ∧
    (∃ k, k ≤ ((fetchRecent history).reverse).length ∧
      buildContext (fetchRecent history).reverse 0
        = (((fetchRecent history).reverse).take k).map toTurn ∧
      storedLen (((fetchRecent history).reverse).take k) ≤ MAX_CONTEXT_CHARS ∧
      ∀ hk : k < ((fetchRecent history).reverse).length,
        MAX_CONTEXT_CHARS < storedLen (((fetchRecent history).reverse).take k)
          + (((fetchRecent history).reverse).get ⟨k, hk⟩).content.length) := by
  refine ⟨?_, ?_, ?_⟩
  · rw [assembleContents_normal]
    split
    · show 1 ≤ MAX_MESSAGES
      decide
    · have h1 := buildContext_length_le (fetchRecent history).reverse 0 (by decide)
      have h2 : ((fetchRecent history).reverse).length ≤ MAX_MESSAGES := by
        simp only [fetchRecent, List.length_reverse, List.length_take]
        exact Nat.min_le_left _ _
      omega
  · rw [assembleContents_normal]
    split
    · have h1 := truncateTo_length_le prompt 1000
      have h2 : MAX_CONTEXT_CHARS = 5000 := rfl
      simp only [turnsLen, List.map_cons, List.map_nil, List.sum_cons, List.sum_nil]
      omega
    · have := buildContext_total_le (fetchRecent history).reverse 0 (by decide)
      simpa using this
  · obtain ⟨k, h1, h2, h3, h4⟩ :=
      buildContext_is_initial_run (fetchRecent history).reverse 0 (by decide)
    exact ⟨k, h1, h2, by simpa using h3, fun hk => by simpa using h4 hk⟩

/-- C4 witness: the bounds instantiated at a stored history of 15 turns. -/
theorem C4_context_window_budget_witness :
    (assembleContents hist15 ("p")).length ≤ MAX_MESSAGES ∧
    turnsLen (assembleContents hist15 ("p")) ≤ MAX_CONTEXT_CHARS :=
  ⟨(C4_context_window_budget hist15 ("p")).1, (C4_context_window_budget hist15 ("p")).2.1⟩

/-- C5: with zero stored turns the assembled context is exactly one user
turn holding the prompt truncated to at most 1000 characters (and the
prompt itself whenever it already fits the 1000-character bound). -/
theorem C5_zero_history_fallback (prompt : String) (hvalid : ¬ prompt = ("")) :
    assembleContents [] prompt = [{ role := ("user"), text := truncateTo prompt 1000 }] ∧
    (truncateTo prompt 1000).length ≤ 1000 ∧
    (prompt.length ≤ 1000 → truncateTo prompt 1000 = prompt) := by
  refine ⟨rfl, truncateTo_length_le prompt 1000, fun h => truncateTo_of_short prompt 1000 h⟩

/-- C5 witness: the fallback at the concrete prompt hi. -/
theorem C5_zero_history_fallback_witness :
    assembleContents [] ("hi") = [{ role := ("user"), text := truncateTo ("hi") 1000 }] :=
  (C5_zero_history_fallback ("hi") (by decide)).1

/-- C7: after an upstream-OK response, a non-null extracted text inserts
exactly one assistant row with the conversation id and the generated
content; a null extraction inserts nothing; and no inserted row ever
carries the user sender, so the caller's own turn is never re-inserted. -/
theorem C7_assistant_row_persistence (chatId : String) (out : GemOut) :
    (∀ t, extractText out = some t →
      persistAssistant chatId (extractText out)
        = [{ chat_id := chatId, content := t, sender := ("assistant") }]) ∧
    (extractText out = none → persistAssistant chatId (extractText out) = []) ∧
    (∀ r ∈ persistAssistant chatId (extractText out),
      r.sender = ("assistant") ∧ ¬ r.sender = ("user")) := by
  refine ⟨?_, ?_, ?_⟩
  · intro t ht
    rw [ht]
    simp [persistAssistant, extractText_not_empty out t ht]
  · intro h
    rw [h]
    rfl
  · intro r hr
    cases hx : extractText out with
    | none =>
      rw [hx] at hr
      simp [persistAssistant] at hr
    | some t =>
      rw [hx] at hr
      simp [persistAssistant, extractText_not_empty out t hx] at hr
      subst hr
      refine ⟨rfl, fun hcon => ?_⟩
      simp at hcon

/-- C7 witness: persistence at a concrete body carrying candidate text. -/
theorem C7_assistant_row_persistence_witness :
    persistAssistant ("chat1") (extractText outSome)
      = [{ chat_id := ("chat1"), content := ("ola"), sender := ("assistant") }] :=
  (C7_assistant_row_persistence ("chat1") outSome).1 ("ola") (by decide)

/-- C8: the health probe maps a raised or aborted fetch to error, a 2xx
response to ok, a non-2xx response of status at least 500 to error, and any
other non-2xx response to warn. -/
theorem C8_probe_status_map :
    runCheck ProbeOutcome.raised = BackendStatus.error ∧
    (∀ st, 200 ≤ st → st ≤ 299 → runCheck (ProbeOutcome.responded st) = BackendStatus.ok) ∧
    (∀ st, respOk st = false → 500 ≤ st →
      runCheck (ProbeOutcome.responded st) = BackendStatus.error) ∧
    (∀ st, respOk st = false → st < 500 →
      runCheck (ProbeOutcome.responded st) = BackendStatus.warn) := by
  refine ⟨rfl, ?_, ?_, ?_⟩
  · intro st h1 h2
    have hok : respOk st = true := by
      unfold respOk
      rw [decide_eq_true h1, decide_eq_true h2]
      rfl
    simp [runCheck, hok]
  · intro st h1 h2
    simp [runCheck, h1, h2]
  · intro st h1 h2
    have h3 : ¬ 500 ≤ st := by omega
    simp [runCheck, h1, h3]

/-- C8 witness: the mapping at the concrete statuses 204, 503 and 404. -/
theorem C8_probe_status_map_witness :
    runCheck (ProbeOutcome.responded 204) = BackendStatus.ok ∧
    runCheck (ProbeOutcome.responded 503) = BackendStatus.error ∧
    runCheck (ProbeOutcome.responded 404) = BackendStatus.warn :=
  ⟨C8_probe_status_map.2.1 204 (by decide) (by decide),
   C8_probe_status_map.2.2.1 503 (by decide) (by decide),
   C8_probe_status_map.2.2.2 404 (by decide) (by decide)⟩

/-- C9: the system-notice appender deduplicates globally by exact content:
whenever any pilot-authored message with the same text already exists in
the transcript, however old, the append leaves the transcript unchanged. -/
theorem C9_notice_global_dedup (msgs : List Message) (sysId : String) (now : Nat)
    (text : String) (h : ∃ m ∈ msgs, m.sender = Sender.pilot ∧ m.content = text) :
    addSystemMessage msgs sysId now text = msgs := by
  have hany : (msgs.any (fun m => m.sender == Sender.pilot && m.content == text)) = true := by
    simp only [List.any_eq_true, Bool.and_eq_true, beq_iff_eq]
    exact h
  unfold addSystemMessage
  rw [if_pos hany]

/-- C9 witness: re-appending the text of an old pilot notice is a no-op. -/
theorem C9_notice_global_dedup_witness :
    addSystemMessage [noticeMsg] ("s9") 77 ("hello") = [noticeMsg] :=
  C9_notice_global_dedup [noticeMsg] ("s9") 77 ("hello")
    ⟨noticeMsg, by simp, rfl, rfl⟩

/-- C10 counterexample: a 13-turn stored history whose chronologically
first turn alone exceeds the budget. The claim as stated predicts the
single-turn prompt fallback, but the over-budget turn is outside the
12-turn window the proxy fetches, so 12 stored turns are assembled and
the fallback does not trigger. -/
theorem C10_counterexample :
    MAX_CONTEXT_CHARS < bigContent.length ∧
    hist13.head? = some { sender := ("user"), content := bigContent } ∧
    (assembleContents hist13 ("p")).length = 12 ∧
    ¬ assembleContents hist13 ("p") = [{ role := ("user"), text := truncateTo ("p") 1000 }] := by
  refine ⟨?_, rfl, ?_, ?_⟩
  · rw [bigContent_length]
    decide
  · decide
  · decide

/-- C10 amended: the truncated-prompt fallback triggers whenever the
assembled context ends up empty, not only when zero turns are stored: for
every history whose oldest turn within the fetched 12-turn window alone
exceeds the 5000-character budget, every stored turn is dropped and the
payload is the single user turn with the prompt truncated to 1000
characters. -/
theorem C10_empty_context_fallback (history : List StoredMsg) (prompt : String)
    (m0 : StoredMsg) (hhead : ((fetchRecent history).reverse).head? = some m0)
    (hbig : MAX_CONTEXT_CHARS < m0.content.length) :
    assembleContents history prompt
      = [{ role := ("user"), text := truncateTo prompt 1000 }] := by
  rw [assembleContents_normal]
  cases hc : (fetchRecent history).reverse with
  | nil =>
    rw [hc] at hhead
    simp at hhead
  | cons a t =>
    rw [hc] at hhead
    simp only [List.head?_cons, Option.some.injEq] at hhead
    have hbig2 : MAX_CONTEXT_CHARS < a.content.length := by
      rw [hhead]
      exact hbig
    have hempty : buildContext (a :: t) 0 = [] := by
      unfold buildContext
      rw [if_pos (by simpa using hbig2)]
    rw [hempty]
    rfl

/-- C10 witness: the fallback at a one-turn history holding a single
5001-character turn. -/
theorem C10_empty_context_fallback_witness :
    assembleContents hist1big ("p")
      = [{ role := ("user"), text := truncateTo ("p") 1000 }] :=
  C10_empty_context_fallback hist1big ("p") { sender := ("user"), content := bigContent }
    rfl (by rw [bigContent_length]; decide)

/-- C3 counterexample: two extra identical attempts within the 10-second
window yield one notice in total, not one per attempt, and the first
attempt clears the input field instead of leaving it untouched. -/
theorem C3_counterexample :
    dupOnce.inputValue = ("") ∧
    ¬ dupOnce.inputValue = ("oi") ∧
    pilotCount dupTwice.messages ("Mensagem duplicada impedida.") = 1 ∧
    ¬ pilotCount dupTwice.messages ("Mensagem duplicada impedida.") = 2 ∧
    (dupTwice.messages.filter (fun m => m.sender == Sender.user)).length = 1 := by
  decide

/-- C3 (amended): every duplicate submission — command or plain, with the
duplicate test exactly as the code performs it per branch — appends no
second user message; the input field is cleared (not left untouched); the
duplicate notice is appended only when no pilot message with the same text
exists, so the notice count becomes the maximum of one and its previous
value (at most one notice over any number of extra attempts); and on the
plain branch the latch is released. -/
theorem C3_duplicate_suppression_amended (geminiEnabled : Bool) (now : Nat)
    (uid pid : String) (sid : Nat → String) (cmd : CmdResult) (proxy : ProxyResult)
    (fb : String) (s : ChatState)
    (hInput : (jsTrim s.inputValue == ("")) = false)
    (hLoad : s.isLoading = false) (hProc : s.isProcessing = false)
    (hDup : (if startsWithChar (jsTrim s.inputValue) ('/')
             then isDuplicateUserMessage s.messages now
               (redactTrailingToken (jsTrim s.inputValue)) none []
             else isDuplicateUserMessage s.messages now s.inputValue s.replyTo
               s.pendingFiles) = true) :
    usersOf (handleSendMessage true geminiEnabled now uid pid sid cmd proxy fb s).messages
      = usersOf s.messages ∧
    (handleSendMessage true geminiEnabled now uid pid sid cmd proxy fb s).inputValue
      = ("") ∧
    pilotCount (handleSendMessage true geminiEnabled now uid pid sid cmd proxy fb s).messages
        ("Mensagem duplicada impedida.")
      = max 1 (pilotCount s.messages ("Mensagem duplicada impedida.")) ∧
    (startsWithChar (jsTrim s.inputValue) ('/') = false →
      (handleSendMessage true geminiEnabled now uid pid sid cmd proxy fb s).isProcessing
        = false) := by
  by_cases hc : startsWithChar (jsTrim s.inputValue) ('/') = true
  · rw [if_pos hc] at hDup
    rw [handleSend_dup_command geminiEnabled now uid pid sid cmd proxy fb s hInput hLoad
      hProc hc hDup]
    refine ⟨usersOf_addSystemMessage _ _ _ _, rfl, pilotCount_addSystemMessage _ _ _ _, ?_⟩
    intro hcon
    rw [hcon] at hc
    simp at hc
  · rw [if_neg hc] at hDup
    have hc' : startsWithChar (jsTrim s.inputValue) ('/') = false := by simpa using hc
    rw [handleSend_dup_plain geminiEnabled now uid pid sid cmd proxy fb s hInput hLoad
      hProc hc' hDup]
    exact ⟨usersOf_addSystemMessage _ _ _ _, rfl, pilotCount_addSystemMessage _ _ _ _,
      fun _ => rfl⟩

/-- C3 witness: the amended statement at a concrete plain duplicate attempt
and at a concrete command duplicate attempt. -/
theorem C3_duplicate_suppression_amended_witness :
    usersOf (handleSendMessage true true 2000 ("u1") ("p1")
        (fun k => ("sysA") ++ toString k) (CmdResult.ok []) (ProxyResult.threw ("")) ("")
        dupState).messages
      = usersOf dupState.messages ∧
    pilotCount (handleSendMessage true true 2000 ("u1") ("p1")
        (fun k => ("sysA") ++ toString k) (CmdResult.ok []) (ProxyResult.threw ("")) ("")
        dupState).messages ("Mensagem duplicada impedida.")
      = max 1 (pilotCount dupState.messages ("Mensagem duplicada impedida.")) ∧
    usersOf (handleSendMessage true true 6000 ("u2") ("p2")
        (fun k => ("sysC") ++ toString k) (CmdResult.ok []) (ProxyResult.threw ("")) ("")
        dupCmdState).messages
      = usersOf dupCmdState.messages ∧
    (handleSendMessage true true 6000 ("u2") ("p2")
        (fun k => ("sysC") ++ toString k) (CmdResult.ok []) (ProxyResult.threw ("")) ("")
        dupCmdState).inputValue = ("") :=
  ⟨(C3_duplicate_suppression_amended true 2000 ("u1") ("p1")
      (fun k => ("sysA") ++ toString k) (CmdResult.ok []) (ProxyResult.threw ("")) ("")
      dupState (by decide) (by decide) (by decide) (by decide)).1,
   (C3_duplicate_suppression_amended true 2000 ("u1") ("p1")
      (fun k => ("sysA") ++ toString k) (CmdResult.ok []) (ProxyResult.threw ("")) ("")
      dupState (by decide) (by decide) (by decide) (by decide)).2.2.1,
   (C3_duplicate_suppression_amended true 6000 ("u2") ("p2")
      (fun k => ("sysC") ++ toString k) (CmdResult.ok []) (ProxyResult.threw ("")) ("")
      dupCmdState (by decide) (by decide) (by decide) (by decide)).1,
   (C3_duplicate_suppression_amended true 6000 ("u2") ("p2")
      (fun k => ("sysC") ++ toString k) (CmdResult.ok []) (ProxyResult.threw ("")) ("")
      dupCmdState (by decide) (by decide) (by decide) (by decide)).2.1⟩

/-- C6: a valid non-duplicate command submission appends exactly one user
message (the transcript's user-authored part grows by exactly that
message), its recorded content is the sanitized command line, its final
status is sent when the dispatched command resolves and error when it
throws; and the sanitizer replaces any trailing whitespace-separated run
of 16 or more token characters by the redaction marker. -/
theorem C6_command_redaction_single_append (geminiEnabled : Bool) (now : Nat)
    (uid pid : String) (sid : Nat → String) (cmd : CmdResult) (proxy : ProxyResult)
    (fb : String) (s : ChatState)
    (hInput : (jsTrim s.inputValue == ("")) = false)
    (hLoad : s.isLoading = false) (hProc : s.isProcessing = false)
    (hCmd : startsWithChar (jsTrim s.inputValue) ('/') = true)
    (hDup : isDuplicateUserMessage s.messages now
      (redactTrailingToken (jsTrim s.inputValue)) none [] = false)
    (hFresh : ∀ m ∈ s.messages, (m.id == uid) = false) :
    usersOf (handleSendMessage true geminiEnabled now uid pid sid cmd proxy fb s).messages
      = usersOf s.messages ++
        [{ id := uid, content := redactTrailingToken (jsTrim s.inputValue),
           sender := Sender.user, timestamp := now, status := some (cmdStatus cmd),
           replyToId := none, attachments := [] }] ∧
    (∀ p w t : List Char,
      (∀ c ∈ t, isTokenChar c = true) → 16 ≤ t.length →
      (∀ c ∈ w, isSpaceChar c = true) → 1 ≤ w.length →
      (∀ c, p.getLast? = some c → isSpaceChar c = false) →
      redactTrailingToken (String.mk (p ++ w ++ t)) = String.mk p ++ (" <REDACTED>")) := by
  refine ⟨?_, fun p w t h1 h2 h3 h4 h5 => redactTrailingToken_spec p w t h1 h2 h3 h4 h5⟩
  cases cmd with
  | ok notices =>
    rw [handleSend_command_ok geminiEnabled now uid pid sid notices proxy fb s hInput hLoad
      hProc hCmd hDup]
    exact usersOf_command_result s.messages uid now sid notices MsgStatus.sent
      (redactTrailingToken (jsTrim s.inputValue)) hFresh
  | thrown notices errMsg =>
    rw [handleSend_command_thrown geminiEnabled now uid pid sid notices errMsg proxy fb s
      hInput hLoad hProc hCmd hDup]
    have h1 : usersOf (markStatus (addSystemMessage (addNotices (s.messages ++
        [{ id := uid, content := redactTrailingToken (jsTrim s.inputValue),
           sender := Sender.user, timestamp := now, status := some MsgStatus.sending,
           replyToId := none, attachments := [] }]) now sid 1 notices)
        (sid 0) now (("Erro ao executar comando: ") ++ errMsg)) uid MsgStatus.error)
        = usersOf s.messages ++
          [{ id := uid, content := redactTrailingToken (jsTrim s.inputValue),
             sender := Sender.user, timestamp := now, status := some MsgStatus.error,
             replyToId := none, attachments := [] }] := by
      rw [usersOf_markStatus2, usersOf_addSystemMessage, ← usersOf_markStatus2]
      exact usersOf_command_result s.messages uid now sid notices MsgStatus.error
        (redactTrailingToken (jsTrim s.inputValue)) hFresh
    exact h1

/-- C6 witness: a concrete command submission carrying a 16-character
trailing secret: the recorded content is the redacted line and the user
message lands with status sent. -/
theorem C6_command_redaction_single_append_witness :
    usersOf (handleSendMessage true true 50 ("u1") ("p1") (fun k => ("sys") ++ toString k)
        (CmdResult.ok []) (ProxyResult.threw ("")) ("") cmdState).messages
      = usersOf cmdState.messages ++
        [{ id := ("u1"), content := redactTrailingToken (jsTrim cmdState.inputValue),
           sender := Sender.user, timestamp := 50,
           status := some (cmdStatus (CmdResult.ok [])), replyToId := none,
           attachments := [] }] ∧
    redactTrailingToken (String.mk ((("/supabase connect https://x.co").data ++ ([' '])
        ++ ("abcdefghijklmnop").data)))
      = String.mk (("/supabase connect https://x.co").data) ++ (" <REDACTED>") :=
  ⟨(C6_command_redaction_single_append true 50 ("u1") ("p1")
      (fun k => ("sys") ++ toString k) (CmdResult.ok []) (ProxyResult.threw ("")) ("")
      cmdState (by decide) (by decide) (by decide) (by decide) (by decide) (by decide)).1,
   (C6_command_redaction_single_append true 50 ("u1") ("p1")
      (fun k => ("sys") ++ toString k) (CmdResult.ok []) (ProxyResult.threw ("")) ("")
      cmdState (by decide) (by decide) (by decide) (by decide) (by decide) (by decide)).2
      (("/supabase connect https://x.co").data) ([' ']) (("abcdefghijklmnop").data)
      (by decide) (by decide) (by decide) (by decide)
      (by
        intro c hc
        rw [show (("/supabase connect https://x.co").data.getLast?) = some ('o') from rfl]
          at hc
        injection hc with h
        rw [← h]
        decide)⟩

end SupaStream
